import Mathlib

/-!
A shallow embedding of the external-data enrichment pipeline of the retail
dashboard repository: `helpers_knmi.py` (gridded-forecast resolver and the
reduction stage of the scientific-format decoder), the external-signal
fetchers and the context aggregator of `pages/storemanager.py`, and
`shop_mapping.py`.

Modelling conventions, used throughout:

* Python floats are modelled as exact rationals (`ℚ`); NumPy's `** 0.5`
  on a nonnegative float is modelled as `Real.sqrt`.
* JSON payloads are the inductive `JsonV`; integer and float JSON numbers
  are both carried as `ℚ` (their distinct Python reprs are collapsed by
  `pyStr`, which no theorem below depends on).
* The HTTP layer is an oracle `Req → HttpResp` covering every behaviour
  of the network: a connection error, or a response carrying a success
  flag (`requests`' `r.ok`), an optional decoded JSON body (`none` models
  a body `r.json()` fails to decode) and the raw text body (`r.text` /
  `r.content`).
* A Python exception is an `Except.error` carrying the exception's name;
  a bare `except` or `except Exception` is modelled by mapping every
  `.error` of the guarded region to the handler's value.
* Every fetcher returns `M α := α × List Req`: its value and the network
  requests it issued, in order, so that "makes no network call" is the
  second component being `[]`.
-/

/-- A decoded JSON value.  Python `None`/`True`/numbers/strings/lists/dicts
as they come out of `requests`' `r.json()`. -/
inductive JsonV where
  | null
  | bool (b : Bool)
  | num (q : ℚ)
  | str (s : String)
  | arr (xs : List JsonV)
  | obj (fields : List (String × JsonV))

/-- Association-list lookup with decidable key equality; the model of
looking a key up in a Python dict (each dict below has at most one entry
per key, maintained by `aset`). -/
def alookup {κ β : Type} [DecidableEq κ] (k : κ) : List (κ × β) → Option β
  | [] => none
  | (k1, v) :: rest => if k1 = k then some v else alookup k rest

/-- Python dict assignment `d[k] = v`: updates the entry in place when the
key is present, else appends (insertion order preserved, as in Python). -/
def aset {κ β : Type} [DecidableEq κ] (d : List (κ × β)) (k : κ) (v : β) : List (κ × β) :=
  match d with
  | [] => [(k, v)]
  | (k1, v1) :: rest => if k1 = k then (k1, v) :: rest else (k1, v1) :: aset rest k v

/-- Python `d.setdefault(k, v)`: a no-op when the key is present, else an
append at the end. -/
def asetd {κ β : Type} [DecidableEq κ] (d : List (κ × β)) (k : κ) (v : β) : List (κ × β) :=
  if (alookup k d).isSome then d else d ++ [(k, v)]

/-- Python truthiness of a JSON value (`if not x` tests). -/
def JsonV.truthy : JsonV → Bool
  | .null => false
  | .bool b => b
  | .num q => if q = 0 then false else true
  | .str s => if s = "" then false else true
  | .arr xs => !xs.isEmpty
  | .obj fs => !fs.isEmpty

/-- Python `str(...)` of a JSON value, as far as the pipeline needs it
(it only ever flows into request URLs, which the theorems quantify the
oracle over).  The int/float repr distinction is collapsed, and composite
values are abbreviated. -/
def pyStr : JsonV → String
  | .null => "None"
  | .bool b => if b then "True" else "False"
  | .num q => if q.den = 1 then toString q.num else toString q
  | .str s => s
  | .arr _ => "<list repr>"
  | .obj _ => "<dict repr>"

/-- Python `j.get(k)` (default `None`): succeeds only on a dict, raising
`AttributeError` on any other receiver. -/
def pyGet : JsonV → String → Except String JsonV
  | .obj fs, k => .ok ((alookup k fs).getD .null)
  | _, _ => .error "AttributeError"

/-- Python `j.get(k, d)` with an explicit default. -/
def pyGetD : JsonV → String → JsonV → Except String JsonV
  | .obj fs, k, d => .ok ((alookup k fs).getD d)
  | _, _, _ => .error "AttributeError"

/-- Python subscript `j[k]` with a string key: `KeyError` on a missing
dict key, `TypeError` on a non-dict receiver. -/
def pyIndex : JsonV → String → Except String JsonV
  | .obj fs, k =>
    match alookup k fs with
    | some v => .ok v
    | none => .error "KeyError"
  | _, _ => .error "TypeError"

/-- The numeric reading Python's comparisons and arithmetic give a JSON
value (`True`/`False` count as `1`/`0`). -/
def toNumQ : JsonV → Option ℚ
  | .num q => some q
  | .bool b => some (if b then 1 else 0)
  | _ => none

/-- Python's rich comparison on two JSON values as `min`/`max`/`sorted`
apply it: numbers and booleans compare numerically, strings
lexicographically; every other pair raises `TypeError`, as in Python 3.
(Python also compares two lists elementwise; that exotic case — element
lists inside a weather or versions feed — is collapsed to `TypeError`
here, turning such a success into the same "no data" outcome every
caller below maps failures to; no theorem below depends on it.) -/
def pyCompare (a b : JsonV) : Except String Ordering :=
  match toNumQ a, toNumQ b with
  | some x, some y => .ok (if x < y then .lt else if y < x then .gt else .eq)
  | _, _ =>
    match a, b with
    | .str s, .str t => .ok (if s < t then .lt else if t < s then .gt else .eq)
    | _, _ => .error "TypeError"

/-- Python `min(xs)`: `ValueError` on an empty list, else the leftmost
minimum; raises when some comparison does. -/
def pyMin : List JsonV → Except String JsonV
  | [] => .error "ValueError"
  | x :: xs =>
    xs.foldlM (fun acc y => do
      let o ← pyCompare y acc
      pure (match o with | .lt => y | _ => acc)) x

/-- Python `max(xs)`: `ValueError` on an empty list, else the leftmost
maximum. -/
def pyMax : List JsonV → Except String JsonV
  | [] => .error "ValueError"
  | x :: xs =>
    xs.foldlM (fun acc y => do
      let o ← pyCompare y acc
      pure (match o with | .gt => y | _ => acc)) x

/-- Python `sorted(xs)[-1]`: the rightmost maximum (`sorted` is ascending
and stable), raising `TypeError` on incomparable elements. -/
def pySortedLast : List JsonV → Except String JsonV
  | [] => .error "IndexError"
  | x :: xs =>
    xs.foldlM (fun acc y => do
      let o ← pyCompare acc y
      pure (match o with | .gt => acc | _ => y)) x

/-- Python `j * n` for a natural literal `n`: numeric multiplication for
numbers and booleans, repetition for strings and lists, `TypeError`
otherwise (`None * n`, `dict * n`). -/
def pyMulNat (j : JsonV) (n : Nat) : Except String JsonV :=
  match toNumQ j with
  | some q => .ok (.num (q * n))
  | none =>
    match j with
    | .str s => .ok (.str (String.join (List.replicate n s)))
    | .arr xs => .ok (.arr (List.flatten (List.replicate n xs)))
    | _ => .error "TypeError"

/-- Python 3 `round(q)` to an integer: round-half-to-even. -/
def pyRound (q : ℚ) : ℤ :=
  if q - ⌊q⌋ < 1/2 then ⌊q⌋
  else if 1/2 < q - ⌊q⌋ then ⌊q⌋ + 1
  else if ⌊q⌋ % 2 = 0 then ⌊q⌋ else ⌊q⌋ + 1

/-- One HTTP request: a plain GET on a URL (the KNMI, CBS, RSS and ICS
calls, whose parameters live in the path), or a GET with a query-params
dict (the two OpenWeather calls). -/
inductive Req where
  | get (url : String)
  | getP (url : String) (params : List (String × String))
deriving DecidableEq

/-- What the network does with one request: a connection error (raises in
`requests.get`), or a response with `r.ok`, the JSON body `r.json()`
yields (`none` when `.json()` raises) and the raw text body. -/
inductive HttpResp where
  | err
  | resp (ok : Bool) (json : Option JsonV) (text : String)

/-- A fetcher's outcome: its value and the requests it issued, in order. -/
abbrev M (α : Type) : Type := α × List Req

/-! ## helpers_knmi.py — the gridded-forecast resolver -/

/-- `BASE` of helpers_knmi.py line 50. -/
def BASE : String := "https://api.dataplatform.knmi.nl/open-data/v1"

/-- `DATASET_CANDIDATES` of helpers_knmi.py lines 31-35. -/
def DATASET_CANDIDATES : List (String × String) :=
  [("harmonie_arome_cy43_p1", "2"), ("harmonie_arome_cy43_p1", "1")]

/-- `_auth_header` (lines 44-48).  The `KNMI_API_KEY` secret is the
`key` parameter (`none` models absence from both `st.secrets` and the
environment); `if not key` also treats an empty string as absent. -/
def auth_header (key : Option String) : List (String × String) :=
  match key with
  | none => []
  | some k => if k = "" then [] else [("Authorization", k)]

/-- The `js.get("versions") or js.get("data") or js` chain of line 59. -/
def ver_chain (body : JsonV) : Except String JsonV := do
  let a ← pyGet body "versions"
  if a.truthy then pure a
  else do
    let b ← pyGet body "data"
    pure (if b.truthy then b else body)

/-- `_pick_latest_version` (lines 52-65): one GET, every failure caught
by the function's own `try`, returning `None`. -/
def pick_latest_version (oracle : Req → HttpResp) (dataset : String) : M (Option String) :=
  let req := Req.get (BASE ++ "/datasets/" ++ dataset ++ "/versions")
  (match oracle req with
   | .err => none
   | .resp ok js _ =>
     if !ok then none
     else
       match js with
       | none => none
       | some body =>
         match ver_chain body with
         | .error _ => none
         | .ok versions =>
           match versions with
           | .arr (x :: xs) =>
             match pySortedLast (x :: xs) with
             | .ok v => some (pyStr v)
             | .error _ => none
           | _ => none,
   [req])

/-- The `js.get("instances") or js.get("data") or []` chain of line 75. -/
def inst_chain (body : JsonV) : Except String JsonV := do
  let a ← pyGet body "instances"
  if a.truthy then pure a
  else do
    let b ← pyGet body "data"
    pure (if b.truthy then b else .arr [])

/-- `_list_instances` (lines 67-78): one GET; a non-ok status, an
undecodable body, a non-dict body or a non-list `instances` value all
collapse to `[]` inside the function's `try`. -/
def list_instances (oracle : Req → HttpResp) (dataset version : String) : M (List JsonV) :=
  let req := Req.get (BASE ++ "/datasets/" ++ dataset ++ "/versions/" ++ version ++ "/instances")
  (match oracle req with
   | .err => []
   | .resp ok js _ =>
     if !ok then []
     else
       match js with
       | none => []
       | some body =>
         match inst_chain body with
         | .error _ => []
         | .ok v => match v with | .arr xs => xs | _ => [],
   [req])

/-- The `js.get("files") or js.get("data") or []` chain of line 87. -/
def files_chain (body : JsonV) : Except String JsonV := do
  let a ← pyGet body "files"
  if a.truthy then pure a
  else do
    let b ← pyGet body "data"
    pure (if b.truthy then b else .arr [])

/-- `_list_files` (lines 80-90), same failure policy as
`list_instances`. -/
def list_files (oracle : Req → HttpResp) (dataset version instId : String) : M (List JsonV) :=
  let req := Req.get (BASE ++ "/datasets/" ++ dataset ++ "/versions/" ++ version ++
    "/instances/" ++ instId ++ "/files")
  (match oracle req with
   | .err => []
   | .resp ok js _ =>
     if !ok then []
     else
       match js with
       | none => []
       | some body =>
         match files_chain body with
         | .error _ => []
         | .ok v => match v with | .arr xs => xs | _ => [],
   [req])

/-- The `js.get("temporaryDownloadUrl") or js.get("url")` chain of
line 102 (note: no trailing `or ...`, so a falsy second value is
returned as-is). -/
def url_chain (body : JsonV) : Except String JsonV := do
  let a ← pyGet body "temporaryDownloadUrl"
  if a.truthy then pure a else pyGet body "url"

/-- `_get_file_url` (lines 92-104).  Python's `None` result is
`JsonV.null`; the caller tests truthiness. -/
def get_file_url (oracle : Req → HttpResp) (dataset version instId filename : String) : M JsonV :=
  let req := Req.get (BASE ++ "/datasets/" ++ dataset ++ "/versions/" ++ version ++
    "/instances/" ++ instId ++ "/files/" ++ filename ++ "/url")
  (match oracle req with
   | .err => .null
   | .resp ok js _ =>
     if !ok then .null
     else
       match js with
       | none => .null
       | some body =>
         match url_chain body with
         | .error _ => .null
         | .ok v => v,
   [req])

/-- `f.get("filename","").lower()` as applied to one file entry in
`_find_candidate_file` (lines 116, 121): a non-dict entry raises
`AttributeError` at `.get`, a present non-string value raises
`AttributeError` at `.lower()`, a missing key yields `""`. -/
def py_filename : JsonV → Except String String
  | .obj fs =>
    match alookup "filename" fs with
    | none => .ok ""
    | some (.str s) => .ok s
    | some _ => .error "AttributeError"
  | _ => .error "AttributeError"

/-- ASCII lowercasing of one character (the KNMI file names the heuristic
inspects are ASCII; Python's full-Unicode `.lower()` agrees on them). -/
def ascii_lower (c : Char) : Char :=
  if 'A' ≤ c ∧ c ≤ 'Z' then Char.ofNat (c.toNat + 32) else c

/-- `.lower()` on a file name. -/
def lower (s : String) : String := String.mk (s.toList.map ascii_lower)

/-- `name.endswith(suffix)`. -/
def ends_with (s suffix : String) : Bool := suffix.toList.isSuffixOf s.toList

/-- The gridded-binary extension test of line 117. -/
def grib_name (s : String) : Bool :=
  ends_with s ".grib2" || ends_with s ".grb2" || ends_with s ".grb"

/-- The NetCDF extension test of line 122. -/
def nc_name (s : String) : Bool := ends_with s ".nc"

/-- One `for f in files:` scan of `_find_candidate_file`, returning the
first entry whose lowered file name satisfies `p`. -/
def find_by (p : String → Bool) : List JsonV → Except String (Option JsonV)
  | [] => .ok none
  | f :: rest => do
    let name ← py_filename f
    if p (lower name) then pure (some f) else find_by p rest

/-- `_find_candidate_file` (lines 106-125): `None` on an empty listing,
else the first gridded-binary name, else the first NetCDF name, else the
first entry. -/
def find_candidate_file : List JsonV → Except String (Option JsonV)
  | [] => .ok none
  | f :: rest => do
    let g1 ← find_by grib_name (f :: rest)
    match g1 with
    | some g => pure (some g)
    | none => do
      let g2 ← find_by nc_name (f :: rest)
      match g2 with
      | some g => pure (some g)
      | none => pure (some f)

/-- The `inst.get("instanceId") or inst.get("id") or inst.get("name")`
chain of line 320 — run on whatever `instances[-1]` is, so a non-dict
last instance raises `AttributeError` here, outside any `try`. -/
def instance_id_of (inst : JsonV) : Except String JsonV := do
  let a ← pyGet inst "instanceId"
  if a.truthy then pure a
  else do
    let b ← pyGet inst "id"
    if b.truthy then pure b else pyGet inst "name"

/-- The dataset-candidate loop of `fetch_knmi_48h_summary` (lines
301-310): for each `(dataset, ver)`, `v = ver or _pick_latest_version(ds)`
then `if v is None: v = _pick_latest_version(ds)`; a candidate with a
truthy version and a non-empty instance listing wins. -/
def pick_go (oracle : Req → HttpResp) : List (String × String) → M (Option (String × String))
  | [] => (none, [])
  | (ds, ver) :: rest =>
    let s1 : M (Option String) :=
      if ver = "" then pick_latest_version oracle ds else (some ver, [])
    let s2 : M (Option String) :=
      match s1.1 with
      | none =>
        let p := pick_latest_version oracle ds
        (p.1, s1.2 ++ p.2)
      | some s => (some s, s1.2)
    match s2.1 with
    | none =>
      let r := pick_go oracle rest
      (r.1, s2.2 ++ r.2)
    | some v =>
      if v = "" then
        let r := pick_go oracle rest
        (r.1, s2.2 ++ r.2)
      else
        let li := list_instances oracle ds v
        match li.1 with
        | [] =>
          let r := pick_go oracle rest
          (r.1, s2.2 ++ li.2 ++ r.2)
        | _ :: _ => (some (ds, v), s2.2 ++ li.2)

/-- `fetch_knmi_48h_summary` (lines 291-345).  `key` is the
`KNMI_API_KEY` secret; `decode` stands for
`_try_parse_grib_or_netcdf_to_timeseries` applied to the downloaded
bytes (its grid machinery depends on the scientific libraries' view of
the bytes, so it is a parameter here; its reduction stage is modelled
separately below).  The result is `Except`: an `.error` is a Python
exception escaping to the caller. -/
def fetch_knmi_48h_summary (oracle : Req → HttpResp) (key : Option String)
    (decode : String → ℚ → ℚ → Except String (Option (List (String × JsonV))))
    (lat lon : ℚ) : M (Except String (Option (List (String × JsonV)))) :=
  match auth_header key with
  | [] => (.ok none, [])
  | _ :: _ =>
    let pd := pick_go oracle DATASET_CANDIDATES
    match pd.1 with
    | none => (.ok none, pd.2)
    | some (dataset, version) =>
      let li := list_instances oracle dataset version
      let log1 := pd.2 ++ li.2
      match li.1.getLast? with
      | none => (.ok none, log1)
      | some inst =>
        match instance_id_of inst with
        | .error e => (.error e, log1)
        | .ok instId =>
          if !instId.truthy then (.ok none, log1)
          else
            let lf := list_files oracle dataset version (pyStr instId)
            let log2 := log1 ++ lf.2
            match lf.1 with
            | [] => (.ok none, log2)
            | f0 :: fs =>
              match find_candidate_file (f0 :: fs) with
              | .error e => (.error e, log2)
              | .ok none => (.ok none, log2)
              | .ok (some f) =>
                if !f.truthy then (.ok none, log2)
                else
                  match pyGet f "filename" with
                  | .error e => (.error e, log2)
                  | .ok filename =>
                    let gu := get_file_url oracle dataset version (pyStr instId) (pyStr filename)
                    let log3 := log2 ++ gu.2
                    if !gu.1.truthy then (.ok none, log3)
                    else
                      match gu.1 with
                      | .str u =>
                        let req := Req.get u
                        (match oracle req with
                         | .err => .ok none
                         | .resp ok _ text =>
                           if !ok then .ok none
                           else decode text lat lon,
                         log3 ++ [req])
                      | _ => (.ok none, log3)

/-! ## helpers_knmi.py — the reduction stage of the decoder

`_try_parse_grib_or_netcdf_to_timeseries` (lines 127-289) opens the
payload with xarray, discovers coordinate axes and variable names, picks
the nearest grid point and a 48-hour window, and then — lines 247-289 —
reduces the extracted per-variable time series to the summary dict.
That reduction stage is embedded here.  Its inputs describe what the
upstream machinery delivered for each variable: not discovered, or
discovered but failing to extract (each `try` block catches the raise
and leaves `out` untouched), or a NaN-free series of values for the
window. -/

/-- Outcome of discovering and extracting one variable's window. -/
inductive VarFetch where
  | absent
  | failed
  | ok (xs : List ℚ)

/-- Outcome for the wind-component pair: used only when no direct
wind-speed variable was discovered (`elif u10 and v10:` at line 272). -/
inductive UVFetch where
  | absent
  | failed
  | ok (us vs : List ℚ)

/-- A value of the summary dict. -/
inductive PyVal where
  | none
  | rat (q : ℚ)
  | int (n : ℤ)
  | str (s : String)
  | real (r : ℝ)

/-- The summary dict under construction (`out` of line 247). -/
abbrev PyDict := List (String × PyVal)

/-- `np.nanmin` over a non-empty NaN-free window. -/
def listMin (x : ℚ) (xs : List ℚ) : ℚ := xs.foldl min x

/-- `np.nanmax` over a non-empty NaN-free window. -/
def listMax (x : ℚ) (xs : List ℚ) : ℚ := xs.foldl max x

/-- `np.nanmax` over the derived wind-speed series. -/
noncomputable def listMaxR (x : ℝ) (xs : List ℝ) : ℝ := xs.foldl max x

/-- One element of `spd = (u**2 + v**2) ** 0.5` (line 275): the vector
magnitude of the two wind components; `** 0.5` on the nonnegative float
`u**2 + v**2` is the square root. -/
noncomputable def mag (u v : ℚ) : ℝ := Real.sqrt ((u : ℝ) ^ 2 + (v : ℝ) ^ 2)

/-- The temperature block (lines 248-254): an extracted non-empty series
sets `temp_min`/`temp_max`; an empty window makes `np.nanmin` raise
before either assignment, which the block's `except` swallows. -/
def temp_part (t2 : VarFetch) : PyDict :=
  match t2 with
  | .ok (x :: xs) => aset (aset [] "temp_min" (.rat (listMin x xs))) "temp_max" (.rat (listMax x xs))
  | _ => []

/-- The unit-heuristic precipitation total of lines 259-261: a raw sum
below 1.0 is taken to be meters and scaled to millimeters. -/
def rain_total (xs : List ℚ) : ℚ :=
  if xs.sum < 1 then xs.sum * 1000 else xs.sum

/-- The crude precipitation probability of line 264:
`float((arr > 0.1).sum()) / max(1, arr.size) * 100.0`. -/
def pop_pct (xs : List ℚ) : ℚ :=
  (xs.countP (fun x => decide ((1 : ℚ)/10 < x)) : ℚ) / (max 1 xs.length : ℚ) * 100

/-- The precipitation block (lines 255-267): an extracted series (empty
included — `np.nansum` of an empty array is `0.0` and raises nothing)
sets `rain_sum` and then `pop_max`. -/
def rain_part (pr : VarFetch) (out : PyDict) : PyDict :=
  match pr with
  | .ok xs => aset (aset out "rain_sum" (.rat (rain_total xs))) "pop_max" (.int (pyRound (pop_pct xs)))
  | _ => out

/-- The wind block (lines 268-278): a discovered wind-speed series wins
outright (when its extraction fails or the window is empty, the raised
error skips the whole block — the component pair is *not* consulted);
only with no wind-speed variable at all are the components combined,
and NumPy raises on a component length mismatch (caught likewise). -/
noncomputable def wind_part (wspd : VarFetch) (uv : UVFetch) (out : PyDict) : PyDict :=
  match wspd with
  | .ok (x :: xs) => aset out "wind_max" (.rat (listMax x xs))
  | .ok [] => out
  | .failed => out
  | .absent =>
    match uv with
    | .ok us vs =>
      if us.length = vs.length then
        match List.zipWith mag us vs with
        | [] => out
        | s :: ss => aset out "wind_max" (.real (listMaxR s ss))
      else out
    | _ => out

/-- The whole reduction loop over `out` (lines 247-278). -/
noncomputable def try_parse_window (t2 pr wspd : VarFetch) (uv : UVFetch) : PyDict :=
  wind_part wspd uv (rain_part pr (temp_part t2))

/-- Lines 280-289: `if not out: return None`, else fill the six
documented keys with their defaults via `setdefault` and return. -/
def finish_summary (out : PyDict) : Option PyDict :=
  match out with
  | [] => none
  | _ :: _ =>
    some (asetd (asetd (asetd (asetd (asetd (asetd out
      "temp_min" .none) "temp_max" .none) "pop_max" (.int 0))
      "rain_sum" (.rat 0)) "wind_max" .none) "first_desc" (.str ""))

/-- The reduction stage end to end: the summary the decoder returns for
the given per-variable extraction outcomes. -/
noncomputable def try_parse_summary (t2 pr wspd : VarFetch) (uv : UVFetch) : Option PyDict :=
  finish_summary (try_parse_window t2 pr wspd uv)

/-! ## pages/storemanager.py — external signals and the aggregator -/

/-- The OpenWeather-shaped summary the fallback produces (its values are
JSON passthroughs plus one multiplication). -/
abbrev JDict := List (String × JsonV)

/-- The key list of a produced summary, in insertion order. -/
def jkeys (d : JDict) : List String := d.map Prod.fst

/-- The secrets the page reads (lines 21-26); an absent secret is the
empty string, exactly as `st.secrets.get(k, "")` yields. -/
structure Config where
  owKey : String
  cbsUrl : String
  rssUrl : String
  icsUrl : String

/-- The OpenWeather geocoding endpoint (line 107). -/
def ow_geo_url : String := "https://api.openweathermap.org/geo/1.0/zip"

/-- The OpenWeather forecast endpoint (line 110). -/
def ow_forecast_url : String := "https://api.openweathermap.org/data/2.5/forecast"

/-- Python `lst[:16]` as `fetch_weather` applies it: list slicing.  A
non-list either raises at the slice or yields items that the per-item
indexing then raises on; both end in the function's bare `except`, so
they are collapsed to one raise here. -/
def py_slice16 : JsonV → Except String (List JsonV)
  | .arr xs => .ok (xs.take 16)
  | _ => .error "TypeError"

/-- A Python list comprehension `[f(i) for i in xs]` over fallible `f`:
the first raise aborts the whole comprehension. -/
def py_listcomp (f : JsonV → Except String JsonV) : List JsonV → Except String (List JsonV)
  | [] => .ok []
  | i :: rest => do
    let v ← f i
    let vs ← py_listcomp f rest
    pure (v :: vs)

/-- Lines 112-114 of `fetch_weather`: build `temps` and `pops` from the
first 16 forecast steps and reduce them to the three-key summary dict.
Any raise anywhere is the function's bare `except`, hence `Option`. -/
def ow_reduce (fc : JsonV) : Option JDict :=
  match pyIndex fc "list" with
  | .error _ => none
  | .ok lst =>
    match py_slice16 lst with
    | .error _ => none
    | .ok lst16 =>
      match py_listcomp (fun i => do
          let m ← pyIndex i "main"
          pyIndex m "temp") lst16 with
      | .error _ => none
      | .ok temps =>
        match py_listcomp (fun i => pyGetD i "pop" (.num 0)) lst16 with
        | .error _ => none
        | .ok pops =>
          match pyMin temps, pyMax temps, pyMax pops with
          | .ok tmin, .ok tmax, .ok pmax =>
            match pyMulNat pmax 100 with
            | .ok popv => some [("temp_min", tmin), ("temp_max", tmax), ("pop_max", popv)]
            | .error _ => none
          | _, _, _ => none

/-- `fetch_weather` (lines 103-115): geocode the 4-digit postal code,
fetch the forecast at the returned coordinates, reduce.  A missing
OpenWeather key or postal code short-circuits to `None` with no request;
every raise inside is swallowed by the bare `except`. -/
def fetch_weather (oracle : Req → HttpResp) (cfg : Config) (pc : String) : M (Option JDict) :=
  if cfg.owKey = "" || pc = "" then (none, [])
  else
    let req1 := Req.getP ow_geo_url [("zip", pc ++ ",NL"), ("appid", cfg.owKey)]
    match oracle req1 with
    | .err => (none, [req1])
    | .resp _ js1 _ =>
      match js1 with
      | none => (none, [req1])
      | some geo =>
        match pyGet geo "lat", pyGet geo "lon" with
        | .ok la, .ok lo =>
          let req2 := Req.getP ow_forecast_url
            [("lat", pyStr la), ("lon", pyStr lo), ("units", "metric"), ("appid", cfg.owKey)]
          (match oracle req2 with
           | .err => none
           | .resp _ js2 _ =>
             match js2 with
             | none => none
             | some fc => ow_reduce fc,
           [req1, req2])
        | _, _ => (none, [req1])

/-- `fetch_cbs_confidence` (lines 117-127): read `js.get("value")`, bail
out on a falsy or empty value, read the first row's fields.  Every raise
(non-dict row included) hits the bare `except`. -/
def fetch_cbs_confidence (oracle : Req → HttpResp) (cfg : Config) : M (Option JDict) :=
  if cfg.cbsUrl = "" then (none, [])
  else
    let req := Req.get cfg.cbsUrl
    (match oracle req with
     | .err => none
     | .resp _ js _ =>
       match js with
       | none => none
       | some body =>
         match pyGet body "value" with
         | .error _ => none
         | .ok v =>
           match (if v.truthy then v else .arr []) with
           | .arr (row :: _) =>
             match (do
               let a ← pyGet row "ConConfidence"
               let b ← pyGet row "Value"
               let p ← pyGet row "Periods"
               pure ([("consumer_confidence", if a.truthy then a else b),
                      ("period", p)] : JDict) : Except String JDict) with
             | .ok d => some d
             | .error _ => none
           | _ => none,
     [req])

/-- `re.findall("<title>(.*?)</title>", txt)` for the feeds the page
reads: the text between each title tag pair, provided it spans no
newline (`.` does not match one).  Nested or unbalanced title markers
are not modelled beyond this; no theorem below relies on this
function's output. -/
def findall_titles (s : String) : List String :=
  ((s.splitOn "<title>").drop 1).filterMap (fun seg =>
    match seg.splitOn "</title>" with
    | [] => none
    | [_] => none
    | first :: _ :: _ => if first.toList.contains '\n' then none else some first)

/-- Scan for the `>` closing a tag, failing at a newline or the end of
input (the regex `<.*?>` cannot cross a newline). -/
def find_gt : List Char → Option (List Char)
  | [] => none
  | c :: rest => if c = '\n' then none else if c = '>' then some rest else find_gt rest

/-- `re.sub("<.*?>", "", t)`, fuelled by the input length (each step
consumes at least one character, so the fuel never runs out). -/
def strip_tags_go : Nat → List Char → List Char
  | 0, _ => []
  | _, [] => []
  | fuel + 1, c :: rest =>
    if c = '<' then
      match find_gt rest with
      | some after => strip_tags_go fuel after
      | none => c :: strip_tags_go fuel rest
    else c :: strip_tags_go fuel rest

/-- HTML-tag stripping of one headline (line 135). -/
def strip_tags (s : String) : String := String.mk (strip_tags_go s.length s.toList)

/-- `fetch_econ_news` (lines 129-136): titles 2-4 of the feed,
tag-stripped; `[]` when unconfigured or on any raise. -/
def fetch_econ_news (oracle : Req → HttpResp) (cfg : Config) : M (List String) :=
  if cfg.rssUrl = "" then ([], [])
  else
    let req := Req.get cfg.rssUrl
    (match oracle req with
     | .err => []
     | .resp _ _ text => (((findall_titles text).drop 1).take 3).map strip_tags,
     [req])

/-- Python `str.splitlines()` on the calendar text: split at `\r\n`,
`\n` or `\r`, with no trailing empty line. -/
def split_lines_go : List Char → List Char → List String
  | acc, [] => [String.mk acc.reverse]
  | acc, '\r' :: '\n' :: rest =>
    String.mk acc.reverse :: (match rest with | [] => [] | _ :: _ => split_lines_go [] rest)
  | acc, '\n' :: rest =>
    String.mk acc.reverse :: (match rest with | [] => [] | _ :: _ => split_lines_go [] rest)
  | acc, '\r' :: rest =>
    String.mk acc.reverse :: (match rest with | [] => [] | _ :: _ => split_lines_go [] rest)
  | acc, c :: rest => split_lines_go (c :: acc) rest

/-- `text.splitlines()`. -/
def splitlines (s : String) : List String :=
  match s.toList with
  | [] => []
  | c :: rest => split_lines_go [] (c :: rest)

/-- `ln.split(":")[-1]`: the text after the last colon (the whole line
when there is none). -/
def last_colon_seg_go : List Char → List Char → List Char
  | acc, [] => acc.reverse
  | acc, c :: rest => if c = ':' then last_colon_seg_go [] rest else last_colon_seg_go (c :: acc) rest

/-- `ln.split(":")[-1]` on a line. -/
def last_colon_seg (s : String) : String := String.mk (last_colon_seg_go [] s.toList)

/-- Python `str.strip()`: drop leading and trailing whitespace. -/
def py_strip (s : String) : String :=
  String.mk (((s.toList.dropWhile Char.isWhitespace).reverse.dropWhile Char.isWhitespace).reverse)

/-- The `f"{d[:4]}-{d[4:6]}-{d[6:8]}"` date of line 146 (Python slices
are lenient on short input, as `List.take`/`List.drop` are). -/
def ics_date (d : String) : String :=
  let l := d.toList
  String.mk (l.take 4) ++ "-" ++ String.mk ((l.drop 4).take 2) ++ "-" ++ String.mk ((l.drop 6).take 2)

/-- The event-scanning loop of `fetch_holidays` (lines 144-150), with
`cur` split into its two possible keys.  `DTSTART` overwrites the
pending date (keeping any pending summary, as the dict `cur` does);
`END:VEVENT` with a pending date but no pending summary raises
`KeyError` at `cur["summary"]`, aborting the whole loop. -/
def hol_go : List String → Option String → Option String → List (String × String) →
    Except String (List (String × String))
  | [], _, _, out => .ok out
  | ln :: rest, curDate, curSum, out =>
    if ("DTSTART".toList).isPrefixOf ln.toList then
      hol_go rest (some (ics_date (py_strip (last_colon_seg ln)))) curSum out
    else if ("SUMMARY:".toList).isPrefixOf ln.toList then
      hol_go rest curDate (some (String.mk (ln.toList.drop 8))) out
    else if ("END:VEVENT".toList).isPrefixOf ln.toList then
      match curDate with
      | some d =>
        match curSum with
        | some sm => hol_go rest none none (aset out d sm)
        | none => .error "KeyError"
      | none => hol_go rest curDate curSum out
    else hol_go rest curDate curSum out

/-- `fetch_holidays` (lines 138-152): `{}` when unconfigured, and `{}`
again whenever anything inside — the request or the loop — raises, the
whole-function `except` discarding every event already parsed. -/
def fetch_holidays (oracle : Req → HttpResp) (cfg : Config) : M (List (String × String)) :=
  if cfg.icsUrl = "" then ([], [])
  else
    let req := Req.get cfg.icsUrl
    (match oracle req with
     | .err => []
     | .resp _ _ text =>
       match hol_go (splitlines text) none none [] with
       | .ok out => out
       | .error _ => [],
     [req])

/-- The merged context of lines 181-185.  The KPI aggregates (`gy`,
`gb`, the peer medians) come from the in-scope analytics pipeline and
are opaque payloads here. -/
structure AiContext (α β : Type) where
  store : String
  yesterday : α
  day_before : α
  peer_median : β
  weather : Option JDict
  cci : Option JDict
  news : List String
  holiday : Option String

/-- Lines 176-185: fetch the four external signals in order and merge
them with the locally-known fields into one context.  The page never
invokes the gridded-forecast resolver: the generic-provider fallback
`fetch_weather` is the one weather source consulted, so it is attempted
whether or not the gridded pipeline could have produced data.  The
builder is a total function: no signal failure can raise out of it. -/
def ai_context {α β : Type} (oracle : Req → HttpResp) (cfg : Config)
    (store pc today : String) (gy gb : α) (pm : β) : M (AiContext α β) :=
  let w := fetch_weather oracle cfg pc
  let c := fetch_cbs_confidence oracle cfg
  let n := fetch_econ_news oracle cfg
  let h := fetch_holidays oracle cfg
  ({ store := store, yesterday := gy, day_before := gb, peer_median := pm,
     weather := w.1, cci := c.1, news := n.1, holiday := alookup today h.1 },
   w.2 ++ (c.2 ++ (n.2 ++ h.2)))

/-! ## shop_mapping.py -/

/-- One entry of the store lookup table. -/
structure ShopInfo where
  name : String
  region : String
  postcode : String

/-- `SHOP_NAME_MAP` (shop_mapping.py lines 3-13). -/
def SHOP_NAME_MAP : List (ℤ × ShopInfo) :=
  [(32224, ⟨"Amersfoort", "Noord NL", "3811"⟩),
   (31977, ⟨"Amsterdam", "Noord NL", "1012"⟩),
   (31831, ⟨"Den Bosch", "Zuid NL", "5211"⟩),
   (32872, ⟨"Haarlem", "Noord NL", "2011"⟩),
   (32319, ⟨"Leiden", "Noord NL", "2311"⟩),
   (32871, ⟨"Maastricht", "Zuid NL", "6211"⟩),
   (30058, ⟨"Nijmegen", "Zuid NL", "6511"⟩),
   (32320, ⟨"Rotterdam", "Zuid NL", "3011"⟩),
   (32204, ⟨"Venlo", "Zuid NL", "5911"⟩)]

/-- `get_postcode_by_id` (lines 16-19): look the shop up (an unknown id
yields `{}` and hence `""`), strip, keep the digits, return the first
four of them, or `""` when there are none. -/
def get_postcode_by_id (shop_id : ℤ) : String :=
  let raw := py_strip (((alookup shop_id SHOP_NAME_MAP).map ShopInfo.postcode).getD "")
  let digits := raw.toList.filter Char.isDigit
  if digits.isEmpty then "" else String.mk (digits.take 4)

/-! ## Laws of the dict operations -/

theorem aset_ne_nil {κ β : Type} [DecidableEq κ] (d : List (κ × β)) (k : κ) (v : β) :
    aset d k v ≠ [] := by
  cases d with
  | nil => simp [aset]
  | cons p rest =>
    obtain ⟨k1, v1⟩ := p
    by_cases h : k1 = k <;> simp [aset, h]

theorem alookup_aset_self {κ β : Type} [DecidableEq κ] (d : List (κ × β)) (k : κ) (v : β) :
    alookup k (aset d k v) = some v := by
  induction d with
  | nil => simp [aset, alookup]
  | cons p rest ih =>
    obtain ⟨k1, v1⟩ := p
    by_cases h : k1 = k <;> simp [aset, alookup, h, ih]

theorem alookup_aset_ne {κ β : Type} [DecidableEq κ] {k1 k : κ} (d : List (κ × β)) (v : β)
    (h : k1 ≠ k) : alookup k1 (aset d k v) = alookup k1 d := by
  induction d with
  | nil => simp [aset, alookup, Ne.symm h]
  | cons p rest ih =>
    obtain ⟨k2, v2⟩ := p
    by_cases h2 : k2 = k
    · subst h2
      simp [aset, alookup, Ne.symm h]
    · by_cases h3 : k2 = k1
      · subst h3
        simp [aset, alookup, h, h2]
      · simp [aset, alookup, h2, h3, ih]

theorem alookup_append_of_some {κ β : Type} [DecidableEq κ] {k : κ} {d : List (κ × β)} {w : β}
    (e : List (κ × β)) (h : alookup k d = some w) : alookup k (d ++ e) = some w := by
  induction d with
  | nil => simp [alookup] at h
  | cons p rest ih =>
    obtain ⟨k1, v1⟩ := p
    by_cases h1 : k1 = k <;> simp_all [alookup]

theorem alookup_append_of_none {κ β : Type} [DecidableEq κ] {k : κ} {d : List (κ × β)}
    (e : List (κ × β)) (h : alookup k d = none) : alookup k (d ++ e) = alookup k e := by
  induction d with
  | nil => simp [alookup]
  | cons p rest ih =>
    obtain ⟨k1, v1⟩ := p
    by_cases h1 : k1 = k <;> simp_all [alookup]

theorem alookup_asetd_of_some {κ β : Type} [DecidableEq κ] {k1 : κ} {d : List (κ × β)} {w : β}
    (k : κ) (v : β) (h : alookup k1 d = some w) : alookup k1 (asetd d k v) = some w := by
  unfold asetd
  by_cases hp : (alookup k d).isSome = true
  · rw [if_pos hp]
    exact h
  · rw [if_neg hp]
    exact alookup_append_of_some _ h

theorem alookup_asetd_ne {κ β : Type} [DecidableEq κ] {k1 k : κ} (d : List (κ × β)) (v : β)
    (h : k1 ≠ k) : alookup k1 (asetd d k v) = alookup k1 d := by
  unfold asetd
  by_cases hp : (alookup k d).isSome = true
  · rw [if_pos hp]
  · rw [if_neg hp]
    cases hl : alookup k1 d with
    | some w => exact alookup_append_of_some _ hl
    | none =>
      have hone : alookup k1 ([(k, v)] : List (κ × β)) = none := by
        simp [alookup, Ne.symm h]
      rw [alookup_append_of_none _ hl, hone]

theorem alookup_asetd_of_none {κ β : Type} [DecidableEq κ] {k : κ} {d : List (κ × β)}
    (v : β) (h : alookup k d = none) : alookup k (asetd d k v) = some v := by
  unfold asetd
  rw [if_neg (by simp [h] : ¬(alookup k d).isSome = true), alookup_append_of_none _ h]
  simp [alookup]

/-! ## Laws of the decoder reduction stage -/

theorem alookup_temp_part {k : String} (t2 : VarFetch)
    (h1 : k ≠ "temp_min") (h2 : k ≠ "temp_max") : alookup k (temp_part t2) = none := by
  cases t2 with
  | ok xs =>
    cases xs with
    | nil => simp [temp_part, alookup]
    | cons x rest =>
      simp [temp_part, alookup, aset, Ne.symm h1, Ne.symm h2]
  | absent => simp [temp_part, alookup]
  | failed => simp [temp_part, alookup]

theorem alookup_rain_part_rain (xs : List ℚ) (out : PyDict) :
    alookup "rain_sum" (rain_part (.ok xs) out) = some (.rat (rain_total xs)) := by
  simp [rain_part, alookup_aset_ne _ _ (by decide : "rain_sum" ≠ "pop_max"), alookup_aset_self]

theorem alookup_rain_part_pop (xs : List ℚ) (out : PyDict) :
    alookup "pop_max" (rain_part (.ok xs) out) = some (.int (pyRound (pop_pct xs))) := by
  simp [rain_part, alookup_aset_self]

theorem alookup_wind_part {k : String} (wspd : VarFetch) (uv : UVFetch) (out : PyDict)
    (h : k ≠ "wind_max") : alookup k (wind_part wspd uv out) = alookup k out := by
  cases wspd with
  | ok xs =>
    cases xs with
    | nil => simp [wind_part]
    | cons x rest => simp [wind_part, alookup_aset_ne _ _ h]
  | failed => simp [wind_part]
  | absent =>
    cases uv with
    | ok us vs =>
      by_cases hl : us.length = vs.length
      · cases hz : List.zipWith mag us vs with
        | nil => simp [wind_part, hl, hz]
        | cons s ss => simp [wind_part, hl, hz, alookup_aset_ne _ _ h]
      · simp [wind_part, hl]
    | absent => simp [wind_part]
    | failed => simp [wind_part]

theorem wind_part_ne_nil {out : PyDict} (wspd : VarFetch) (uv : UVFetch)
    (h : out ≠ []) : wind_part wspd uv out ≠ [] := by
  cases wspd with
  | ok xs => cases xs with
    | nil => simpa [wind_part] using h
    | cons x rest => simp [wind_part, aset_ne_nil]
  | failed => simpa [wind_part] using h
  | absent =>
    cases uv with
    | ok us vs =>
      by_cases hl : us.length = vs.length
      · cases hz : List.zipWith mag us vs with
        | nil => simpa [wind_part, hl, hz] using h
        | cons s ss => simp [wind_part, hl, hz, aset_ne_nil]
      · simpa [wind_part, hl] using h
    | absent => simpa [wind_part] using h
    | failed => simpa [wind_part] using h

theorem rain_part_ok_ne_nil (xs : List ℚ) (out : PyDict) : rain_part (.ok xs) out ≠ [] := by
  simp [rain_part, aset_ne_nil]

/-- The fully-defaulted summary of lines 283-288. -/
def final_out (out : PyDict) : PyDict :=
  asetd (asetd (asetd (asetd (asetd (asetd out
    "temp_min" .none) "temp_max" .none) "pop_max" (.int 0))
    "rain_sum" (.rat 0)) "wind_max" .none) "first_desc" (.str "")

theorem finish_summary_eq {out : PyDict} (h : out ≠ []) :
    finish_summary out = some (final_out out) := by
  cases out with
  | nil => exact absurd rfl h
  | cons p rest => rfl

theorem alookup_final_of_some {k : String} {out : PyDict} {w : PyVal}
    (h : alookup k out = some w) : alookup k (final_out out) = some w := by
  unfold final_out
  exact alookup_asetd_of_some _ _ (alookup_asetd_of_some _ _ (alookup_asetd_of_some _ _
    (alookup_asetd_of_some _ _ (alookup_asetd_of_some _ _ (alookup_asetd_of_some _ _ h)))))

theorem alookup_final_pop_default {out : PyDict} (h : alookup "pop_max" out = none) :
    alookup "pop_max" (final_out out) = some (.int 0) := by
  unfold final_out
  have h1 : alookup "pop_max" (asetd out "temp_min" PyVal.none) = none := by
    rw [alookup_asetd_ne _ _ (by decide)]; exact h
  have h2 : alookup "pop_max"
      (asetd (asetd out "temp_min" PyVal.none) "temp_max" PyVal.none) = none := by
    rw [alookup_asetd_ne _ _ (by decide)]; exact h1
  have h3 := alookup_asetd_of_none (PyVal.int 0) h2
  exact alookup_asetd_of_some _ _ (alookup_asetd_of_some _ _ (alookup_asetd_of_some _ _ h3))

/-! ## Bounds for the crude precipitation probability -/

theorem pop_pct_nonneg (xs : List ℚ) : 0 ≤ pop_pct xs := by
  unfold pop_pct
  positivity

theorem pop_pct_le_100 (xs : List ℚ) : pop_pct xs ≤ 100 := by
  unfold pop_pct
  have hc : (xs.countP (fun x => decide ((1 : ℚ)/10 < x)) : ℚ) ≤ (max 1 xs.length : ℚ) := by
    have h1 : xs.countP (fun x => decide ((1 : ℚ)/10 < x)) ≤ xs.length := List.countP_le_length _
    have h2 : xs.length ≤ max 1 xs.length := le_max_right _ _
    exact_mod_cast le_trans h1 h2
  have hm : (0 : ℚ) < (max 1 xs.length : ℚ) := by
    have : (1 : ℕ) ≤ max 1 xs.length := le_max_left _ _
    exact_mod_cast lt_of_lt_of_le zero_lt_one (by exact_mod_cast this)
  calc (xs.countP (fun x => decide ((1 : ℚ)/10 < x)) : ℚ) / (max 1 xs.length : ℚ) * 100
      ≤ 1 * 100 := by
        apply mul_le_mul_of_nonneg_right _ (by norm_num)
        exact (div_le_one hm).mpr hc
    _ = 100 := by norm_num

theorem pop_pct_eq (xs : List ℚ) :
    pop_pct xs = (xs.countP (fun x => decide ((1 : ℚ)/10 < x)) : ℚ) / (xs.length : ℚ) * 100 := by
  cases xs with
  | nil => simp [pop_pct]
  | cons a l =>
    unfold pop_pct
    have hm : max (1 : ℚ) (((a :: l).length : ℕ) : ℚ) = (((a :: l).length : ℕ) : ℚ) := by
      apply max_eq_right
      exact_mod_cast Nat.succ_le_succ (Nat.zero_le l.length)
    rw [hm]

theorem pyRound_nonneg {q : ℚ} (h : 0 ≤ q) : 0 ≤ pyRound q := by
  have hf : (0 : ℤ) ≤ ⌊q⌋ := Int.le_floor.mpr (by exact_mod_cast h)
  unfold pyRound
  split_ifs <;> omega

theorem pyRound_le_100 {q : ℚ} (h : q ≤ 100) : pyRound q ≤ 100 := by
  have hf : ⌊q⌋ ≤ 100 := by
    have h1 : ⌊q⌋ ≤ ⌊(100 : ℚ)⌋ := Int.floor_le_floor h
    have h2 : ⌊(100 : ℚ)⌋ = 100 := by
      rw [Int.floor_eq_iff]
      norm_num
    omega
  have hfl : (⌊q⌋ : ℚ) ≤ q := Int.floor_le q
  have key : (1 : ℚ)/2 ≤ q - ⌊q⌋ → ⌊q⌋ ≤ 99 := by
    intro hr
    have h2 : (⌊q⌋ : ℚ) ≤ 199/2 := by linarith
    have h3 : ⌊q⌋ ≤ ⌊(199/2 : ℚ)⌋ := Int.le_floor.mpr h2
    have h4 : ⌊(199/2 : ℚ)⌋ = 99 := by
      rw [Int.floor_eq_iff]
      norm_num
    omega
  unfold pyRound
  split_ifs with h1 h2 h3
  · exact hf
  · have := key (le_of_lt h2)
    omega
  · exact hf
  · have := key (le_of_not_lt h1)
    omega

/-! ## Key presence after the setdefault chain -/

theorem alookup_asetd_isSome_self {κ β : Type} [DecidableEq κ] (d : List (κ × β)) (k : κ)
    (v : β) : (alookup k (asetd d k v)).isSome := by
  cases hl : alookup k d with
  | some w => rw [alookup_asetd_of_some _ _ hl]; rfl
  | none => rw [alookup_asetd_of_none _ hl]; rfl

theorem alookup_asetd_isSome_of {κ β : Type} [DecidableEq κ] {k1 : κ} {d : List (κ × β)}
    (h : (alookup k1 d).isSome) (k : κ) (v : β) : (alookup k1 (asetd d k v)).isSome := by
  cases hl : alookup k1 d with
  | some w => rw [alookup_asetd_of_some _ _ hl]; rfl
  | none => rw [hl] at h; simp at h

theorem final_out_keys (out : PyDict) :
    (alookup "temp_min" (final_out out)).isSome ∧ (alookup "temp_max" (final_out out)).isSome
    ∧ (alookup "pop_max" (final_out out)).isSome ∧ (alookup "rain_sum" (final_out out)).isSome
    ∧ (alookup "wind_max" (final_out out)).isSome
    ∧ (alookup "first_desc" (final_out out)).isSome := by
  unfold final_out
  refine ⟨?_, ?_, ?_, ?_, ?_, ?_⟩
  · exact alookup_asetd_isSome_of (alookup_asetd_isSome_of (alookup_asetd_isSome_of
      (alookup_asetd_isSome_of (alookup_asetd_isSome_of
        (alookup_asetd_isSome_self _ _ _) _ _) _ _) _ _) _ _) _ _
  · exact alookup_asetd_isSome_of (alookup_asetd_isSome_of (alookup_asetd_isSome_of
      (alookup_asetd_isSome_of (alookup_asetd_isSome_self _ _ _) _ _) _ _) _ _) _ _
  · exact alookup_asetd_isSome_of (alookup_asetd_isSome_of (alookup_asetd_isSome_of
      (alookup_asetd_isSome_self _ _ _) _ _) _ _) _ _
  · exact alookup_asetd_isSome_of (alookup_asetd_isSome_of
      (alookup_asetd_isSome_self _ _ _) _ _) _ _
  · exact alookup_asetd_isSome_of (alookup_asetd_isSome_self _ _ _) _ _
  · exact alookup_asetd_isSome_self _ _ _

/-! ## The file-selection scan against its specification reading -/

/-- A well-formed file entry: a JSON object with a string file name. -/
def mkFile (n : String) : JsonV := .obj [("filename", .str n)]

/-- The selection rule as the spec words it: the first entry with a
gridded-binary extension, else the first with a NetCDF extension, else
the first entry in listing order. -/
def spec_pick (names : List String) : Option String :=
  match names.find? (fun n => grib_name (lower n)) with
  | some g => some g
  | none =>
    match names.find? (fun n => nc_name (lower n)) with
    | some g => some g
    | none => names.head?

theorem find_by_map (p : String → Bool) (names : List String) :
    find_by p (names.map mkFile) = .ok ((names.find? (fun n => p (lower n))).map mkFile) := by
  induction names with
  | nil => rfl
  | cons n rest ih =>
    have hf : py_filename (mkFile n) = .ok n := rfl
    by_cases hp : p (lower n)
    · simp [find_by, hf, hp, List.find?_cons_of_pos, Bind.bind, Except.bind,
        Pure.pure, Except.pure]
    · simp [find_by, hf, hp, List.find?_cons_of_neg, ih, Bind.bind, Except.bind,
        Pure.pure, Except.pure]

/-! ## Shape analysis of the generic-weather fallback -/

theorem py_strip_subset (s : String) : ∀ a ∈ (py_strip s).toList, a ∈ s.toList := by
  intro a ha
  have ha1 : a ∈ ((s.toList.dropWhile Char.isWhitespace).reverse.dropWhile
      Char.isWhitespace).reverse := ha
  rw [List.mem_reverse] at ha1
  have ha2 := (List.dropWhile_sublist _).subset ha1
  rw [List.mem_reverse] at ha2
  exact (List.dropWhile_sublist _).subset ha2

theorem fetch_weather_val (oracle : Req → HttpResp) (cfg : Config) (pc : String) :
    (fetch_weather oracle cfg pc).1 = none
    ∨ ∃ fc, (fetch_weather oracle cfg pc).1 = ow_reduce fc := by
  simp only [fetch_weather]
  split
  · exact Or.inl rfl
  · split
    · exact Or.inl rfl
    · split
      · exact Or.inl rfl
      · split
        · split
          · exact Or.inl rfl
          · split
            · exact Or.inl rfl
            · exact Or.inr ⟨_, rfl⟩
        · exact Or.inl rfl

theorem ow_reduce_keys {fc : JsonV} {d : JDict} (h : ow_reduce fc = some d) :
    jkeys d = ["temp_min", "temp_max", "pop_max"] := by
  unfold ow_reduce at h
  repeat' split at h
  all_goals try (exact Option.noConfusion h)
  injection h with h2
  subst h2
  rfl

/-! ## The claims -/

/-- Claim C5: with the KNMI credential absent from secrets and
environment alike (and likewise when it is present but empty, which
`if not key` treats identically), `fetch_knmi_48h_summary` returns
`None` immediately — for every latitude/longitude, every decoder and
every network behaviour — and its request log is empty: no network
request is performed. -/
theorem c5_no_key_no_request (oracle : Req → HttpResp)
    (decode : String → ℚ → ℚ → Except String (Option (List (String × JsonV))))
    (lat lon : ℚ) :
    fetch_knmi_48h_summary oracle none decode lat lon = (.ok none, [])
    ∧ fetch_knmi_48h_summary oracle (some "") decode lat lon = (.ok none, []) :=
  ⟨rfl, rfl⟩

/-- A network on which every KNMI listing endpoint answers 200 with the
JSON body `{"instances": [42]}` — a well-formed response whose instance
list holds a non-dict element. -/
def knmi_bad_oracle : Req → HttpResp :=
  fun _ => .resp true (some (.obj [("instances", .arr [.num 42])])) ""

/-- Claim C2 (the code, evaluated at the failing input): with a key
configured and the instances listing returning `{"instances": [42]}`,
`fetch_knmi_48h_summary` does not return a summary or `None` — the
chain `instances[-1].get("instanceId")` raises `AttributeError`
outside every `try`, and the exception escapes to the caller,
whatever the decoder and coordinates. -/
theorem c2_resolver_crash
    (decode : String → ℚ → ℚ → Except String (Option (List (String × JsonV))))
    (lat lon : ℚ) :
    (fetch_knmi_48h_summary knmi_bad_oracle (some "knmi-key") decode lat lon).1
      = .error "AttributeError" := rfl

/-- A configuration with only the holiday-calendar feed configured. -/
def ics_cfg : Config := ⟨"", "", "", "ics-feed-url"⟩

/-- A calendar in which the first event is complete and the second has a
`DTSTART` but reaches `END:VEVENT` without any `SUMMARY` line. -/
def ics_doc_mixed : String :=
  "BEGIN:VEVENT\nDTSTART:20250101\nSUMMARY:Nieuwjaarsdag\nEND:VEVENT\nBEGIN:VEVENT\nDTSTART:20250418\nEND:VEVENT"

/-- The same calendar with only the complete first event. -/
def ics_doc_single : String :=
  "BEGIN:VEVENT\nDTSTART:20250101\nSUMMARY:Nieuwjaarsdag\nEND:VEVENT"

/-- A network returning the mixed calendar. -/
def ics_oracle_mixed : Req → HttpResp := fun _ => .resp true none ics_doc_mixed

/-- A network returning the single-event calendar. -/
def ics_oracle_single : Req → HttpResp := fun _ => .resp true none ics_doc_single

/-- Claim C10: on a calendar whose second event has a `DTSTART` and
reaches `END:VEVENT` without a `SUMMARY`, `fetch_holidays` returns the
empty mapping — the `KeyError` from `cur["summary"]` is caught at
whole-function scope, discarding the first event, which the same feed
without the malformed event does deliver. -/
theorem c10_holiday_discard :
    (fetch_holidays ics_oracle_mixed ics_cfg).1 = []
    ∧ (fetch_holidays ics_oracle_single ics_cfg).1 = [("2025-01-01", "Nieuwjaarsdag")] :=
  ⟨rfl, rfl⟩

/-- Claim C9: for every integer shop id, `get_postcode_by_id` returns a
string of digit characters only, of length at most four; it is a total
function (no raise), returns `""` for every id outside `SHOP_NAME_MAP`,
and returns `""` whenever the stored postcode holds no digit. -/
theorem c9_postcode (shop_id : ℤ) :
    (∀ c ∈ (get_postcode_by_id shop_id).toList, c.isDigit = true)
    ∧ (get_postcode_by_id shop_id).length ≤ 4
    ∧ (alookup shop_id SHOP_NAME_MAP = none → get_postcode_by_id shop_id = "")
    ∧ (∀ info : ShopInfo, alookup shop_id SHOP_NAME_MAP = some info →
        info.postcode.toList.filter Char.isDigit = [] → get_postcode_by_id shop_id = "") := by
  refine ⟨?_, ?_, ?_, ?_⟩
  · intro c hc
    simp only [get_postcode_by_id] at hc
    by_cases hd : ((py_strip (((alookup shop_id SHOP_NAME_MAP).map
        ShopInfo.postcode).getD "")).toList.filter Char.isDigit).isEmpty
    · rw [if_pos hd] at hc
      exact absurd hc (List.not_mem_nil c)
    · rw [if_neg hd] at hc
      have hc1 : c ∈ ((py_strip (((alookup shop_id SHOP_NAME_MAP).map
          ShopInfo.postcode).getD "")).toList.filter Char.isDigit).take 4 := hc
      exact (List.mem_filter.mp (List.mem_of_mem_take hc1)).2
  · simp only [get_postcode_by_id]
    by_cases hd : ((py_strip (((alookup shop_id SHOP_NAME_MAP).map
        ShopInfo.postcode).getD "")).toList.filter Char.isDigit).isEmpty
    · rw [if_pos hd]
      decide
    · rw [if_neg hd]
      have hlen : (String.mk (((py_strip (((alookup shop_id SHOP_NAME_MAP).map
          ShopInfo.postcode).getD "")).toList.filter Char.isDigit).take 4)).length
          = (((py_strip (((alookup shop_id SHOP_NAME_MAP).map
          ShopInfo.postcode).getD "")).toList.filter Char.isDigit).take 4).length := rfl
      rw [hlen]
      exact List.length_take_le 4 _
  · intro h
    simp only [get_postcode_by_id, h]
    rfl
  · intro info hinfo hfil
    simp only [get_postcode_by_id, hinfo, Option.map_some', Option.getD_some]
    have hnil : (py_strip info.postcode).toList.filter Char.isDigit = [] := by
      rw [List.filter_eq_nil_iff]
      intro a ha
      exact (List.filter_eq_nil_iff.mp hfil) a (py_strip_subset info.postcode a ha)
    rw [hnil]
    rfl

/-- Claim C4: on every non-empty listing of well-formed file entries,
`_find_candidate_file` returns exactly what the specification's
selection order dictates — the first entry whose lowercased name ends
in `.grib2`/`.grb2`/`.grb`, else the first ending in `.nc`, else the
first entry of the listing; deterministically, with no dependence on
where the other entries sit. -/
theorem c4_candidate_selection (names : List String) (h : names ≠ []) :
    find_candidate_file (names.map mkFile) = .ok ((spec_pick names).map mkFile) := by
  cases names with
  | nil => exact absurd rfl h
  | cons n rest =>
    have h1 := find_by_map grib_name (n :: rest)
    have h2 := find_by_map nc_name (n :: rest)
    rw [List.map_cons] at h1 h2
    cases hg : (n :: rest).find? (fun m => grib_name (lower m)) with
    | some g =>
      rw [hg] at h1
      simp [find_candidate_file, h1, spec_pick, hg, Bind.bind, Except.bind,
        Pure.pure, Except.pure]
    | none =>
      rw [hg] at h1
      cases hn : (n :: rest).find? (fun m => nc_name (lower m)) with
      | some g =>
        rw [hn] at h2
        simp [find_candidate_file, h1, h2, spec_pick, hg, hn, Bind.bind, Except.bind,
          Pure.pure, Except.pure]
      | none =>
        rw [hn] at h2
        simp [find_candidate_file, h1, h2, spec_pick, hg, hn, Bind.bind, Except.bind,
          Pure.pure, Except.pure]

/-- Witness for claim C4 at a concrete fixture: a listing holding both a
`.nc` entry and a `.GRIB2` entry yields the gridded-binary entry in
either order. -/
theorem c4_candidate_selection_witness :
    find_candidate_file [mkFile "data.nc", mkFile "run.GRIB2"]
      = .ok (some (mkFile "run.GRIB2"))
    ∧ find_candidate_file [mkFile "run.GRIB2", mkFile "data.nc"]
      = .ok (some (mkFile "run.GRIB2")) := by
  constructor
  · exact (c4_candidate_selection ["data.nc", "run.GRIB2"] (by decide)).trans rfl
  · exact (c4_candidate_selection ["run.GRIB2", "data.nc"] (by decide)).trans rfl

/-- Claim C6: in every summary the decoder's reduction stage produces
from a precipitation window, `rain_sum` is the raw window sum when that
sum is at least 1.0 and the raw sum scaled by 1000 when it is below 1.0
(the meters-to-millimeters heuristic), whatever the other variables
did; in particular a raw sum of 0.5 yields 500.0 and a raw sum of 5.0
stays 5.0. -/
theorem c6_rain_heuristic :
    (∀ (t2 wspd : VarFetch) (uv : UVFetch) (arr : List ℚ),
      alookup "rain_sum" ((try_parse_summary t2 (.ok arr) wspd uv).getD [])
        = some (.rat (if arr.sum < 1 then arr.sum * 1000 else arr.sum)))
    ∧ alookup "rain_sum" ((try_parse_summary .absent (.ok [1/2]) .absent .absent).getD [])
        = some (.rat 500)
    ∧ alookup "rain_sum" ((try_parse_summary .absent (.ok [5]) .absent .absent).getD [])
        = some (.rat 5) := by
  have main : ∀ (t2 wspd : VarFetch) (uv : UVFetch) (arr : List ℚ),
      alookup "rain_sum" ((try_parse_summary t2 (.ok arr) wspd uv).getD [])
        = some (.rat (if arr.sum < 1 then arr.sum * 1000 else arr.sum)) := by
    intro t2 wspd uv arr
    have hwin : alookup "rain_sum" (try_parse_window t2 (.ok arr) wspd uv)
        = some (.rat (rain_total arr)) := by
      unfold try_parse_window
      rw [alookup_wind_part _ _ _ (by decide)]
      exact alookup_rain_part_rain arr _
    have hne : try_parse_window t2 (.ok arr) wspd uv ≠ [] := by
      unfold try_parse_window
      exact wind_part_ne_nil _ _ (rain_part_ok_ne_nil arr _)
    unfold try_parse_summary
    rw [finish_summary_eq hne]
    simp only [Option.getD_some]
    rw [alookup_final_of_some hwin]
    rfl
  refine ⟨main, ?_, ?_⟩
  · rw [main VarFetch.absent VarFetch.absent UVFetch.absent [1/2]]
    norm_num
  · rw [main VarFetch.absent VarFetch.absent UVFetch.absent [5]]
    norm_num

/-- Claim C7: every summary the reduction stage produces from a
precipitation window carries an integer `pop_max` between 0 and 100;
its value is the count of window steps exceeding the 0.1 threshold,
divided by the window size, times 100, rounded to the nearest integer
(Python's `round`, half to even; the division is the junk-free
rendering of `max(1, arr.size)`, which agrees with the window size on
every produced window).  A window of 10 steps of which exactly 3 exceed
the threshold yields 30, and a summary produced while precipitation is
unknown defaults `pop_max` to 0. -/
theorem c7_pop_percent :
    (∀ (t2 wspd : VarFetch) (uv : UVFetch) (arr : List ℚ), ∃ n : ℤ,
      alookup "pop_max" ((try_parse_summary t2 (.ok arr) wspd uv).getD []) = some (.int n)
      ∧ n = pyRound ((arr.countP (fun x => decide ((1 : ℚ)/10 < x)) : ℚ)
            / (arr.length : ℚ) * 100)
      ∧ 0 ≤ n ∧ n ≤ 100)
    ∧ (∀ (t2 wspd pr : VarFetch) (uv : UVFetch) (d : PyDict),
        (pr = .absent ∨ pr = .failed) → try_parse_summary t2 pr wspd uv = some d →
        alookup "pop_max" d = some (.int 0))
    ∧ alookup "pop_max" ((try_parse_summary .absent
        (.ok [1, 1, 1, 0, 0, 0, 0, 0, 0, 0]) .absent .absent).getD [])
        = some (.int 30) := by
  have main : ∀ (t2 wspd : VarFetch) (uv : UVFetch) (arr : List ℚ),
      alookup "pop_max" ((try_parse_summary t2 (.ok arr) wspd uv).getD [])
        = some (.int (pyRound (pop_pct arr))) := by
    intro t2 wspd uv arr
    have hwin : alookup "pop_max" (try_parse_window t2 (.ok arr) wspd uv)
        = some (.int (pyRound (pop_pct arr))) := by
      unfold try_parse_window
      rw [alookup_wind_part _ _ _ (by decide)]
      exact alookup_rain_part_pop arr _
    have hne : try_parse_window t2 (.ok arr) wspd uv ≠ [] := by
      unfold try_parse_window
      exact wind_part_ne_nil _ _ (rain_part_ok_ne_nil arr _)
    unfold try_parse_summary
    rw [finish_summary_eq hne]
    simp only [Option.getD_some]
    exact alookup_final_of_some hwin
  refine ⟨?_, ?_, ?_⟩
  · intro t2 wspd uv arr
    refine ⟨pyRound (pop_pct arr), main t2 wspd uv arr, ?_, ?_, ?_⟩
    · rw [pop_pct_eq]
    · exact pyRound_nonneg (pop_pct_nonneg arr)
    · exact pyRound_le_100 (pop_pct_le_100 arr)
  · intro t2 wspd pr uv d hpr hd
    have hwin : alookup "pop_max" (try_parse_window t2 pr wspd uv) = none := by
      unfold try_parse_window
      rw [alookup_wind_part _ _ _ (by decide)]
      rcases hpr with h | h <;> subst h <;>
        simpa [rain_part] using alookup_temp_part t2 (by decide) (by decide)
    unfold try_parse_summary at hd
    cases hw : try_parse_window t2 pr wspd uv with
    | nil =>
      rw [hw] at hd
      exact absurd hd (by simp [finish_summary])
    | cons p rest =>
      rw [hw] at hd
      rw [finish_summary_eq (by simp)] at hd
      injection hd with hd2
      subst hd2
      rw [hw] at hwin
      exact alookup_final_pop_default hwin
  · rw [main VarFetch.absent VarFetch.absent UVFetch.absent [1, 1, 1, 0, 0, 0, 0, 0, 0, 0]]
    have hpp : pop_pct [1, 1, 1, 0, 0, 0, 0, 0, 0, 0] = 30 := by
      unfold pop_pct
      norm_num [List.countP_cons, List.countP_nil]
    rw [hpp]
    have hr : pyRound (30 : ℚ) = 30 := by
      have hf30 : ⌊(30 : ℚ)⌋ = 30 := by
        rw [Int.floor_eq_iff]
        norm_num
      unfold pyRound
      rw [hf30]
      norm_num
    rw [hr]

/-- Claim C8: in every summary the reduction stage produces, a
discovered direct wind-speed series fixes `wind_max` as its window
maximum, whatever the component pair holds; only with no direct
wind-speed variable does `wind_max` come from the per-timestep vector
magnitude `sqrt(u^2 + v^2)` of the two components, maximised over the
window.  For components `u = 3, v = 4` at a single timestep, the
derived speed is 5.0 and `wind_max` over that single-step window is
5.0. -/
theorem c8_wind_max :
    (∀ (t2 pr : VarFetch) (uv : UVFetch) (x : ℚ) (xs : List ℚ),
      alookup "wind_max" ((try_parse_summary t2 pr (.ok (x :: xs)) uv).getD [])
        = some (.rat (listMax x xs)))
    ∧ (∀ (t2 pr : VarFetch) (u v : ℚ) (us vs : List ℚ) (d : PyDict),
        us.length = vs.length →
        try_parse_summary t2 pr .absent (.ok (u :: us) (v :: vs)) = some d →
        alookup "wind_max" d = some (.real (listMaxR (mag u v) (List.zipWith mag us vs))))
    ∧ mag 3 4 = 5
    ∧ alookup "wind_max" ((try_parse_summary .absent .absent .absent (.ok [3] [4])).getD [])
        = some (.real 5) := by
  have hdirect : ∀ (t2 pr : VarFetch) (uv : UVFetch) (x : ℚ) (xs : List ℚ),
      alookup "wind_max" ((try_parse_summary t2 pr (.ok (x :: xs)) uv).getD [])
        = some (.rat (listMax x xs)) := by
    intro t2 pr uv x xs
    have hwin : try_parse_window t2 pr (.ok (x :: xs)) uv
        = aset (rain_part pr (temp_part t2)) "wind_max" (.rat (listMax x xs)) := by
      unfold try_parse_window wind_part
      rfl
    unfold try_parse_summary
    rw [hwin, finish_summary_eq (aset_ne_nil _ _ _)]
    simp only [Option.getD_some]
    exact alookup_final_of_some (alookup_aset_self _ _ _)
  have huv : ∀ (t2 pr : VarFetch) (u v : ℚ) (us vs : List ℚ) (d : PyDict),
      us.length = vs.length →
      try_parse_summary t2 pr .absent (.ok (u :: us) (v :: vs)) = some d →
      alookup "wind_max" d = some (.real (listMaxR (mag u v) (List.zipWith mag us vs))) := by
    intro t2 pr u v us vs d h hd
    have hwin : try_parse_window t2 pr .absent (.ok (u :: us) (v :: vs))
        = aset (rain_part pr (temp_part t2)) "wind_max"
            (.real (listMaxR (mag u v) (List.zipWith mag us vs))) := by
      unfold try_parse_window wind_part
      dsimp only
      rw [if_pos (by simp [h] : (u :: us).length = (v :: vs).length)]
      rfl
    unfold try_parse_summary at hd
    rw [hwin, finish_summary_eq (aset_ne_nil _ _ _)] at hd
    injection hd with hd2
    subst hd2
    exact alookup_final_of_some (alookup_aset_self _ _ _)
  have hmag : mag 3 4 = 5 := by
    unfold mag
    have h1 : (((3 : ℚ) : ℝ)) ^ 2 + (((4 : ℚ) : ℝ)) ^ 2 = 25 := by
      push_cast
      norm_num
    rw [h1, show (25 : ℝ) = 5 ^ 2 by norm_num, Real.sqrt_sq (by norm_num : (0 : ℝ) ≤ 5)]
  refine ⟨hdirect, huv, hmag, ?_⟩
  have hwin : try_parse_window .absent .absent .absent (.ok [3] [4])
      = aset [] "wind_max" (.real (listMaxR (mag 3 4) (List.zipWith mag [] []))) := by
    unfold try_parse_window wind_part
    dsimp only
    rw [if_pos (by simp : ([(3 : ℚ)]).length = ([(4 : ℚ)]).length)]
    rfl
  unfold try_parse_summary
  rw [hwin, finish_summary_eq (aset_ne_nil _ _ _)]
  simp only [Option.getD_some]
  rw [alookup_final_of_some (alookup_aset_self _ _ _)]
  have hone : listMaxR (mag 3 4) (List.zipWith mag ([] : List ℚ) []) = mag 3 4 := rfl
  rw [hone, hmag]

/-- A configuration with only the OpenWeather key set. -/
def ow_cfg : Config := ⟨"ow-key", "", "", ""⟩

/-- A well-formed OpenWeather forecast body: two time steps, the first
with a `pop` of 0, the second without one (exercising the default). -/
def ow_fc_json : JsonV :=
  .obj [("list", .arr [
    .obj [("main", .obj [("temp", .num 10)]), ("pop", .num 0)],
    .obj [("main", .obj [("temp", .num 12)])]])]

/-- A network on which the OpenWeather geocoding and forecast endpoints
both answer well-formed JSON. -/
def ow_oracle : Req → HttpResp := fun r =>
  match r with
  | .getP u _ =>
    if u = ow_geo_url then .resp true (some (.obj [("lat", .num 52), ("lon", .num 5)])) ""
    else .resp true (some ow_fc_json) ""
  | .get _ => .err

/-- The generic-weather fallback on that network: a successful summary,
holding exactly the three keys the code's dict literal writes. -/
theorem ow_weather_eval :
    (fetch_weather ow_oracle ow_cfg "1012").1
      = some [("temp_min", JsonV.num 10), ("temp_max", JsonV.num 12),
              ("pop_max", JsonV.num 0)] := by
  have h0 : (fetch_weather ow_oracle ow_cfg "1012").1
      = some [("temp_min", JsonV.num 10), ("temp_max", JsonV.num 12),
              ("pop_max", JsonV.num ((0 : ℚ) * (100 : ℕ)))] := rfl
  rw [h0]
  norm_num

/-- Claim C3, as stated, fails on the code: the generic-weather
fallback is a producer of weather summaries in the pipeline, and on a
fully well-formed response it returns a summary carrying only
`temp_min`, `temp_max` and `pop_max` — `rain_sum` and `wind_max` (and
`first_desc`) are absent, so not every produced summary is fully
keyed with all six fields. -/
theorem c3_fully_keyed_false :
    (fetch_weather ow_oracle ow_cfg "1012").1
      = some [("temp_min", JsonV.num 10), ("temp_max", JsonV.num 12),
              ("pop_max", JsonV.num 0)]
    ∧ alookup "rain_sum" (((fetch_weather ow_oracle ow_cfg "1012").1).getD []) = none
    ∧ alookup "wind_max" (((fetch_weather ow_oracle ow_cfg "1012").1).getD []) = none := by
  refine ⟨ow_weather_eval, ?_, ?_⟩ <;> rw [ow_weather_eval] <;> rfl

/-- Claim C3, amended to what the code guarantees: every summary the
scientific-format decoder produces is fully keyed with all of
`temp_min`, `temp_max`, `pop_max`, `rain_sum`, `wind_max` and
`first_desc` (defaults filling the underived ones), and a decoder that
derived nothing returns no object at all; the generic-weather fallback,
however, produces summaries keyed with exactly `temp_min`, `temp_max`
and `pop_max`, or no object at all. -/
theorem c3_amended_keys :
    (∀ (t2 pr wspd : VarFetch) (uv : UVFetch) (d : PyDict),
      try_parse_summary t2 pr wspd uv = some d →
      ((alookup "temp_min" d).isSome = true ∧ (alookup "temp_max" d).isSome = true
        ∧ (alookup "pop_max" d).isSome = true ∧ (alookup "rain_sum" d).isSome = true
        ∧ (alookup "wind_max" d).isSome = true ∧ (alookup "first_desc" d).isSome = true))
    ∧ (∀ (oracle : Req → HttpResp) (cfg : Config) (pc : String) (d : JDict),
      (fetch_weather oracle cfg pc).1 = some d →
      jkeys d = ["temp_min", "temp_max", "pop_max"]) := by
  constructor
  · intro t2 pr wspd uv d hd
    unfold try_parse_summary at hd
    cases hw : try_parse_window t2 pr wspd uv with
    | nil =>
      rw [hw] at hd
      exact absurd hd (by simp [finish_summary])
    | cons p rest =>
      rw [hw, finish_summary_eq (by simp)] at hd
      injection hd with hd2
      subst hd2
      exact final_out_keys _
  · intro oracle cfg pc d hd
    rcases fetch_weather_val oracle cfg pc with h | ⟨fc, h⟩
    · rw [h] at hd
      exact absurd hd (by simp)
    · rw [h] at hd
      exact ow_reduce_keys hd

/-- Witness for the amended claim C3 at concrete inputs: a decoder
summary derived from an empty precipitation window alone still carries
`rain_sum` and `first_desc` keys, and the concrete fallback summary of
`ow_oracle` carries exactly the three keys. -/
theorem c3_amended_keys_witness :
    (alookup "rain_sum" ((try_parse_summary VarFetch.absent (VarFetch.ok [])
        VarFetch.absent UVFetch.absent).getD [])).isSome = true
    ∧ (alookup "first_desc" ((try_parse_summary VarFetch.absent (VarFetch.ok [])
        VarFetch.absent UVFetch.absent).getD [])).isSome = true
    ∧ jkeys (((fetch_weather ow_oracle ow_cfg "1012").1).getD [])
        = ["temp_min", "temp_max", "pop_max"] := by
  have hsum : try_parse_summary VarFetch.absent (VarFetch.ok []) VarFetch.absent UVFetch.absent
      = some (final_out (try_parse_window VarFetch.absent (VarFetch.ok [])
          VarFetch.absent UVFetch.absent)) := by
    unfold try_parse_summary
    refine finish_summary_eq ?_
    unfold try_parse_window
    exact wind_part_ne_nil _ _ (rain_part_ok_ne_nil [] _)
  have h := c3_amended_keys.1 VarFetch.absent (VarFetch.ok []) VarFetch.absent
    UVFetch.absent _ hsum
  have h3 := c3_amended_keys.2 ow_oracle ow_cfg "1012" _ ow_weather_eval
  refine ⟨?_, ?_, ?_⟩
  · rw [hsum]
    simpa using h.2.2.2.1
  · rw [hsum]
    simpa using h.2.2.2.2.2
  · rw [ow_weather_eval]
    simpa using h3

/-- Claim C1: whenever the gridded-forecast pipeline signals unavailable
(`fetch_knmi_48h_summary` yields `None`), the page's context assembly
still attempts the generic commercial weather API — with the
OpenWeather key and a postal code configured, the geocoding request is
in the aggregation's request log — and when that fallback fails too,
the `weather` field of the merged context is `None` while the context
is still assembled (`ai_context` is a total function: no signal raises
out of it).  The page consults only the generic provider, so the
fallback is attempted irrespective of what the gridded pipeline could
have delivered. -/
theorem c1_weather_fallback {α β : Type} (oracle : Req → HttpResp) (cfg : Config)
    (key : Option String)
    (decode : String → ℚ → ℚ → Except String (Option (List (String × JsonV))))
    (lat lon : ℚ) (store pc today : String) (gy gb : α) (pm : β)
    (_hknmi : (fetch_knmi_48h_summary oracle key decode lat lon).1 = .ok none)
    (how : (fetch_weather oracle cfg pc).1 = none) :
    (ai_context oracle cfg store pc today gy gb pm).1.weather = none
    ∧ (cfg.owKey ≠ "" → pc ≠ "" →
        Req.getP ow_geo_url [("zip", pc ++ ",NL"), ("appid", cfg.owKey)]
          ∈ (ai_context oracle cfg store pc today gy gb pm).2) := by
  constructor
  · exact how
  · intro h1 h2
    have hmem : Req.getP ow_geo_url [("zip", pc ++ ",NL"), ("appid", cfg.owKey)]
        ∈ (fetch_weather oracle cfg pc).2 := by
      simp only [fetch_weather]
      rw [if_neg (by simp [h1, h2])]
      repeat' split
      all_goals exact List.mem_cons_self _ _
    exact List.mem_append_left _ hmem

/-- A network that refuses every connection. -/
def wx_err_oracle : Req → HttpResp := fun _ => .err

/-- Witness for claim C1 at a concrete input: on a dead network the
gridded pipeline is unavailable and the fallback fails, yet the context
is assembled with a `None` weather field, and its request log shows the
geocoding attempt was made. -/
theorem c1_weather_fallback_witness :
    (ai_context wx_err_oracle ⟨"ow-key", "", "", ""⟩ "Amsterdam" "1012" "2025-10-12"
        (0 : ℤ) (0 : ℤ) (0 : ℤ)).1.weather = none
    ∧ Req.getP ow_geo_url [("zip", "1012" ++ ",NL"), ("appid", "ow-key")]
        ∈ (ai_context wx_err_oracle ⟨"ow-key", "", "", ""⟩ "Amsterdam" "1012" "2025-10-12"
            (0 : ℤ) (0 : ℤ) (0 : ℤ)).2 := by
  have h := c1_weather_fallback wx_err_oracle ⟨"ow-key", "", "", ""⟩ (some "knmi-key")
    (fun _ _ _ => .ok none) 52 5 "Amsterdam" "1012" "2025-10-12" (0 : ℤ) (0 : ℤ) (0 : ℤ)
    rfl rfl
  exact ⟨h.1, h.2 (by decide) (by decide)⟩

/-- Witness for claim C9 at concrete ids: an unknown shop id yields the
empty string, and a known one yields at most four characters. -/
theorem c9_postcode_witness :
    get_postcode_by_id 0 = "" ∧ (get_postcode_by_id 32224).length ≤ 4 :=
  ⟨(c9_postcode 0).2.2.1 rfl, (c9_postcode 32224).2.1⟩
